import Mathlib

/-!
Verification development for the products-manager acquisition pipeline.

The definitions below are shallow embeddings of the TypeScript source:

* `src/lib/scraper-utils.ts` (the admission controller / rate limiter,
  backoff computation): `RequestTracker`, `checkRateLimit`, `recordRequest`,
  `recordError`, `getBackoffDelay`.  Timestamps are modelled as `Int`
  (milliseconds), JavaScript's `Math.random()` samples are passed in as
  explicit rational parameters, and float comparisons/divisions are modelled
  exactly over `ℚ`.
* `src/app/api/scrape-amazon/route.ts`: `extractUpc`, `extractPrice`,
  `cleanImageUrl` / `collectImages`, `uploadImagesToSupabase`, and the
  `POST` handler control flow `postScrapeAmazon`.  The HTML document is
  modelled at the boundary where the source consumes it (lists of table
  rows, lists of discovered raw image URLs, text of the selected price
  sub-elements); network and database effects are modelled by explicit
  oracles and counters.
* `src/app/page.tsx`: `identifyProductCode`, the identifier classifier.
-/

namespace ProductsManager

/-! ## Admission controller state (scraper-utils.ts `RequestTracker`) -/

structure RequestTracker where
  count : Nat
  hourlyCount : Nat
  dailyCount : Nat
  lastRequest : Int
  hourStart : Int
  dayStart : Int
  errorCount : Nat
  totalRequests : Nat
  currentUserAgent : String
  sessionStart : Int
  deriving Repr, DecidableEq

/-- The module-initialisation value of the tracker (`scraper-utils.ts` line 51),
with `Date.now()` at load time passed in as `t0`. -/
def initialTracker (t0 : Int) (ua0 : String) : RequestTracker :=
  { count := 0
    hourlyCount := 0
    dailyCount := 0
    lastRequest := 0
    hourStart := t0
    dayStart := t0
    errorCount := 0
    totalRequests := 0
    currentUserAgent := ua0
    sessionStart := t0 }

inductive RateLimitResult where
  | allowed : RateLimitResult
  | denied (reason : String) (waitTime : Int) : RateLimitResult
  deriving Repr, DecidableEq

def hourlyLimit : Nat := 15

def hourlyReason : String := "Hourly rate limit exceeded"
def errorRateReason : String := "High error rate - pausing to avoid detection"
def tooSoonReason : String := "Minimum delay not met - varying pace like human"

/-- The window-rollover prelude of `checkRateLimit` (scraper-utils.ts
lines 135-150): reset the hourly counter when more than an hour has passed
since `hourStart`, and the daily counter (plus `errorCount`) when more than
24 hours have passed since `dayStart`. -/
def applyWindowResets (t : RequestTracker) (now : Int) : RequestTracker :=
  let t1 := if now - t.hourStart > 3600000 then
    { t with hourlyCount := 0, hourStart := now } else t
  if now - t1.dayStart > 86400000 then
    { t1 with dailyCount := 0, dayStart := now, errorCount := 0 } else t1

/-- The decision part of `checkRateLimit` (scraper-utils.ts lines 152-194),
evaluated on the post-rollover tracker.  `minDelay` is the value of
`getHumanDelay(randomActionType)` sampled inside the function; it is passed
in explicitly because it is random.  Wait times are in seconds, via
`Math.ceil(waitTime / 1000)` for the hourly and spacing branches and the
literal `300` for the error-rate branch. -/
def rateDecision (t : RequestTracker) (now minDelay : Int) : RateLimitResult :=
  if hourlyLimit ≤ t.hourlyCount then
    .denied hourlyReason (Int.ceil (((3600000 - (now - t.hourStart) : Int) : ℚ) / 1000))
  else if 0 < t.totalRequests ∧
      (1 : ℚ) / 10 < (t.errorCount : ℚ) / (t.totalRequests : ℚ) then
    .denied errorRateReason 300
  else if now - t.lastRequest < minDelay ∧ 0 < t.lastRequest then
    .denied tooSoonReason (Int.ceil (((minDelay - (now - t.lastRequest) : Int) : ℚ) / 1000))
  else
    .allowed

/-- `checkRateLimit` (scraper-utils.ts lines 130-195): apply window
rollovers (mutating the tracker), then decide. -/
def checkRateLimit (t : RequestTracker) (now minDelay : Int) :
    RequestTracker × RateLimitResult :=
  let t2 := applyWindowResets t now
  (t2, rateDecision t2 now minDelay)

/-- `recordRequest` (scraper-utils.ts lines 200-212). -/
def recordRequest (t : RequestTracker) (now : Int) : RequestTracker :=
  { t with
    count := t.count + 1
    hourlyCount := t.hourlyCount + 1
    dailyCount := t.dailyCount + 1
    totalRequests := t.totalRequests + 1
    lastRequest := now }

/-- `recordError` (scraper-utils.ts lines 217-231); the status code only
affects logging. -/
def recordError (t : RequestTracker) : RequestTracker :=
  { t with errorCount := t.errorCount + 1, totalRequests := t.totalRequests + 1 }

/-! ## Backoff (scraper-utils.ts `getBackoffDelay`) -/

/-- `getBackoffDelay` (scraper-utils.ts lines 116-125).  `rand` is the
`Math.random()` sample (in `[0,1)`), passed explicitly; arithmetic is exact
over `ℚ` and `Math.round` is `round` (both are floor of `x + 1/2`). -/
def getBackoffDelay (attemptNumber : Nat) (rand : ℚ) : ℤ :=
  let baseDelay : ℚ := 1000
  let maxDelay : ℚ := 60000
  let delay : ℚ := min (baseDelay * 2 ^ attemptNumber) maxDelay
  let jitter : ℚ := delay * (1/4) * (rand * 2 - 1)
  round (delay + jitter)

/-! ## UPC extraction (route.ts `scrapeAmazonProduct`, lines 405-412)

The document is modelled at the boundary the source consumes it: the list of
`<tr>` rows in document order, each with the text of its `th` and `td`
children (cheerio `.text()` of an empty selection is `""`). -/

structure TableRow where
  th : String
  td : String
  deriving Repr, DecidableEq

/-- JavaScript `String.prototype.trim`: strip whitespace from both ends
(implemented over the character list so that it evaluates by kernel
reduction). -/
def jsTrim (s : String) : String :=
  String.mk (((s.toList.dropWhile Char.isWhitespace).reverse.dropWhile
    Char.isWhitespace).reverse)

/-- JavaScript `String.prototype.toUpperCase` on the ASCII identifiers this
code handles. -/
def jsToUpper (s : String) : String := String.mk (s.toList.map Char.toUpper)

/-- Occurrence of `pat` at index `i` of `cs`. -/
def subAt (cs pat : List Char) (i : Nat) : Bool :=
  ((cs.drop i).take pat.length) == pat

/-- JavaScript `String.prototype.includes`: `pat` occurs somewhere in
`s`. -/
def includesStr (s pat : String) : Bool :=
  (List.range (s.toList.length + 1)).any (fun i => subAt s.toList pat.toList i)

/-- The row-label test `label.includes('UPC') || label.includes('EAN')`
applied to `label = th.text().trim()`. -/
def upcLabel (r : TableRow) : Bool :=
  includesStr (jsTrim r.th) "UPC" || includesStr (jsTrim r.th) "EAN"

/-- The UPC scan: `let upc; $('tr').each(...)` assigns
`upc = td.text().trim()` on every row whose label matches, with no early
exit from the loop. -/
def extractUpc (rows : List TableRow) : Option String :=
  rows.foldl (fun acc r => if upcLabel r then some (jsTrim r.td) else acc) none

/-! ## Price extraction (route.ts lines 290-296) -/

/-- `replace(/[^0-9]/g, '')`. -/
def digitsOf (s : String) : List Char := s.toList.filter Char.isDigit

def digitsToNat (ds : List Char) : Nat :=
  ds.foldl (fun acc c => 10 * acc + (c.toNat - '0'.toNat)) 0

/-- Price composition from the text of the first `.a-price .a-price-whole`
and `.a-price .a-price-fraction` elements: keep only digits of each; if the
whole-digit string is non-empty, the price is
`parseFloat(priceWhole + "." + (priceFraction || "00"))`, modelled exactly
over `ℚ`; otherwise `price` stays `undefined`. -/
def extractPrice (wholeText fracText : String) : Option ℚ :=
  let priceWhole := digitsOf wholeText
  let priceFraction := digitsOf fracText
  if priceWhole ≠ [] then
    let fracDigits := if priceFraction = [] then ['0', '0'] else priceFraction
    some ((digitsToNat priceWhole : ℚ) +
      (digitsToNat fracDigits : ℚ) / 10 ^ fracDigits.length)
  else none

/-! ## Image URL normalization (route.ts `cleanImageUrl`, lines 299-304)

`url.replace(/\._[A-Z0-9_]+_\./, '.').replace(/\._[A-Z0-9_]+\.jpg/, '.jpg')`
with non-global regexes: each `replace` rewrites only the leftmost match,
and the `+` quantifier is greedy (longest run that still lets the tail of
the pattern match). -/

/-- The character class `[A-Z0-9_]` (no `i` flag: case sensitive). -/
def sizeModChar (c : Char) : Bool := c.isUpper || c.isDigit || c == '_'

/-- A run of `m` `sizeModChar`s starting at index `i`. -/
def sizeRunAt (cs : List Char) (i m : Nat) : Bool :=
  ((cs.drop i).take m).length == m && ((cs.drop i).take m).all sizeModChar

/-- Greedy match length of `[A-Z0-9_]+` in `\._[A-Z0-9_]+_\.` at index `i`
(the `+` body has `m` characters); `none` when the pattern does not match
at `i`. -/
def matchLen1 (cs : List Char) (i : Nat) : Option Nat :=
  if cs.get? i == some '.' && cs.get? (i + 1) == some '_' then
    ((List.range (cs.length + 1)).filter (fun m =>
      decide (1 ≤ m) && sizeRunAt cs (i + 2) m &&
      cs.get? (i + 2 + m) == some '_' && cs.get? (i + 3 + m) == some '.')).max?
  else none

/-- Leftmost match of `\._[A-Z0-9_]+_\.` as `(start, length of the + body)`. -/
def findMatch1 (cs : List Char) : Option (Nat × Nat) :=
  (List.range cs.length).findSome? (fun i => (matchLen1 cs i).map (fun m => (i, m)))

/-- `url.replace(/\._[A-Z0-9_]+_\./, '.')`: the match spans `m + 4`
characters and is replaced by a single `.`. -/
def replaceSizeMod1 (s : String) : String :=
  match findMatch1 s.toList with
  | none => s
  | some (i, m) => String.mk (s.toList.take i ++ ['.'] ++ s.toList.drop (i + m + 4))

/-- Greedy match length for `\._[A-Z0-9_]+\.jpg` at index `i`. -/
def matchLen2 (cs : List Char) (i : Nat) : Option Nat :=
  if cs.get? i == some '.' && cs.get? (i + 1) == some '_' then
    ((List.range (cs.length + 1)).filter (fun m =>
      decide (1 ≤ m) && sizeRunAt cs (i + 2) m &&
      cs.get? (i + 2 + m) == some '.' && cs.get? (i + 3 + m) == some 'j' &&
      cs.get? (i + 4 + m) == some 'p' && cs.get? (i + 5 + m) == some 'g')).max?
  else none

def findMatch2 (cs : List Char) : Option (Nat × Nat) :=
  (List.range cs.length).findSome? (fun i => (matchLen2 cs i).map (fun m => (i, m)))

/-- The second replacement `.replace(/\._[A-Z0-9_]+\.jpg/, '.jpg')`: the
match spans `m + 6` characters and is replaced by `.jpg`. -/
def replaceSizeMod2 (s : String) : String :=
  match findMatch2 s.toList with
  | none => s
  | some (i, m) =>
    String.mk (s.toList.take i ++ ['.', 'j', 'p', 'g'] ++ s.toList.drop (i + m + 6))

/-- `cleanImageUrl` (route.ts lines 299-304): `if (!url) return ''` then the
two replacements. -/
def cleanImageUrl (url : String) : String :=
  if url = "" then "" else replaceSizeMod2 (replaceSizeMod1 url)

/-- The shared image-set accumulation used by all four extraction methods
(route.ts lines 307-378): `imageSet` is a JS `Set` (insertion-ordered,
duplicates ignored) and every discovered URL is pushed through
`cleanImageUrl` with empty results skipped (`if (cleanUrl) imageSet.add`);
at the end `Array.from(imageSet)` yields the entries in first-insertion
order.  `discovered` is the sequence of raw URLs the four strategies offer
to the set, in document discovery order (after each strategy's own
pre-filters such as the `play-icon` and `"null"` skips). -/
def addClean (acc : List String) (url : String) : List String :=
  let c := cleanImageUrl url
  if c = "" then acc
  else if c ∈ acc then acc
  else acc ++ [c]

def collectImages (discovered : List String) : List String :=
  discovered.foldl addClean []

/-! ## Image acquisition (route.ts `uploadImagesToSupabase`, lines 434-532) -/

structure ImageRecord where
  productId : String
  imageUrl : String
  storagePath : String
  position : Nat
  deriving Repr, DecidableEq

/-- JavaScript `String.prototype.split` with a single-character separator
(used for `contentType.split('/')`). -/
def splitChar (cs : List Char) (sep : Char) : List (List Char) :=
  cs.foldr (fun c acc =>
    if c == sep then [] :: acc
    else match acc with
      | h :: t => (c :: h) :: t
      | [] => [[c]]) [[]]

/-- `uploadImagesToSupabase`: loop `i` from `0` to `min(imageUrls.length, 12)`;
each iteration downloads, uploads to storage and inserts a DB row inside one
`try`, pushing the inserted record on success; on any failure it logs and
continues with the next index.  Effects are modelled by oracles: `stepOk i`
is whether iteration `i`'s download/upload/insert all succeed,
`contentTypeOf i` is the response `content-type` header (`none` when
absent), and `publicUrlFor` is the storage collaborator's
`getPublicUrl`. -/
def uploadImagesToSupabase (productId asin : String) (imageUrls : List String)
    (stepOk : Nat → Bool) (contentTypeOf : Nat → Option String)
    (publicUrlFor : String → String) : List ImageRecord :=
  (List.range (min imageUrls.length 12)).foldl
    (fun recs i =>
      if stepOk i then
        let ct := (contentTypeOf i).getD "image/jpeg"
        let ext0 := String.mk ((splitChar ct.toList '/').getD 1 [])
        let ext := if ext0 = "" then "jpg" else ext0
        let storagePath := asin ++ "/" ++ toString (i + 1) ++ "." ++ ext
        recs ++ [{ productId := productId
                   imageUrl := publicUrlFor storagePath
                   storagePath := storagePath
                   position := i }]
      else recs) []

/-! ## Identifier classifier (page.tsx `identifyProductCode`, lines 18-73) -/

structure Identified where
  type : String
  code : String
  deriving Repr, DecidableEq

/-- Regex `/^B[A-Z0-9]{9}$/i`. -/
def asinPat (s : String) : Bool :=
  match s.toList with
  | c :: rest => (c == 'B' || c == 'b') && rest.length == 9 && rest.all Char.isAlphanum
  | [] => false

/-- Regex `/^X[A-Z0-9]{9}$/i`. -/
def fnskuPat (s : String) : Bool :=
  match s.toList with
  | c :: rest => (c == 'X' || c == 'x') && rest.length == 9 && rest.all Char.isAlphanum
  | [] => false

/-- Regex `/^[A-Z0-9]{10}$/i`. -/
def tenCharPat (s : String) : Bool :=
  s.toList.length == 10 && s.toList.all Char.isAlphanum

/-- Regex `/^\d{12}$/`. -/
def upc12Pat (s : String) : Bool :=
  s.toList.length == 12 && s.toList.all Char.isDigit

/-- Regex `/^\d{13}$/`. -/
def ean13Pat (s : String) : Bool :=
  s.toList.length == 13 && s.toList.all Char.isDigit

/-- Regex `/^\d{6,8}$/`. -/
def upcShortPat (s : String) : Bool :=
  decide (6 ≤ s.toList.length) && decide (s.toList.length ≤ 8) &&
    s.toList.all Char.isDigit

/-- Regex `/^[A-Z0-9-_]{3,}$/i`, the generic-SKU pattern. -/
def skuPat (s : String) : Bool :=
  decide (3 ≤ s.toList.length) &&
    s.toList.all (fun c => c.isAlphanum || c == '-' || c == '_')

/-- Case-insensitive literal occurrence of `lit` at index `i` of `cs`. -/
def litMatchAt (cs : List Char) (i : Nat) (lit : List Char) : Bool :=
  ((cs.drop i).take lit.length).map Char.toLower == lit.map Char.toLower

/-- Exactly-10 run of `[A-Z0-9]` (case-insensitive) starting at `i`,
returned as a string. -/
def alnum10At (cs : List Char) (i : Nat) : Option String :=
  let seg := (cs.drop i).take 10
  if seg.length == 10 && seg.all Char.isAlphanum then some (String.mk seg) else none

/-- Leftmost match of a pattern `lit` followed by a 10-character
alphanumeric capture, as in `/\/dp\/([A-Z0-9]{10})/i`. -/
def findLitAsin (cs : List Char) (lit : String) : Option String :=
  (List.range cs.length).findSome? (fun i =>
    if litMatchAt cs i lit.toList then alnum10At cs (i + lit.toList.length) else none)

/-- Leftmost match of `/[?&]ASIN=([A-Z0-9]{10})/i`. -/
def findQueryAsin (cs : List Char) : Option String :=
  (List.range cs.length).findSome? (fun i =>
    if (cs.get? i == some '?' || cs.get? i == some '&') &&
        litMatchAt cs (i + 1) "ASIN=".toList then
      alnum10At cs (i + 6)
    else none)

/-- Match of `/amazon\.com\/.*\/([A-Z0-9]{10})/i`: leftmost occurrence of
the `amazon.com/` literal from which the rest matches, with the greedy `.*`
giving the capture at the last viable `/` after it. -/
def findAmazonAsin (cs : List Char) : Option String :=
  (List.range cs.length).findSome? (fun i =>
    if litMatchAt cs i "amazon.com/".toList then
      (((List.range cs.length).filter (fun q =>
          decide (i + 11 ≤ q) && cs.get? q == some '/' &&
            (alnum10At cs (q + 1)).isSome)).max?).bind
        (fun q => alnum10At cs (q + 1))
    else none)

/-- `identifyProductCode` (page.tsx lines 18-73): trim, then ordered
pattern checks with first match winning, then the Amazon-URL patterns in
order, else `null`. -/
def identifyProductCode (input : String) : Option Identified :=
  let trimmed := jsTrim input
  if asinPat trimmed then some ⟨"ASIN", jsToUpper trimmed⟩
  else if fnskuPat trimmed then some ⟨"FNSKU", jsToUpper trimmed⟩
  else if tenCharPat trimmed then some ⟨"ASIN", jsToUpper trimmed⟩
  else if upc12Pat trimmed then some ⟨"UPC", trimmed⟩
  else if ean13Pat trimmed then some ⟨"EAN", trimmed⟩
  else if upcShortPat trimmed then some ⟨"UPC", trimmed⟩
  else if skuPat trimmed then some ⟨"SKU", jsToUpper trimmed⟩
  else
    let cs := trimmed.toList
    match findLitAsin cs "/dp/" with
    | some a => some ⟨"ASIN", jsToUpper a⟩
    | none =>
      match findLitAsin cs "/gp/product/" with
      | some a => some ⟨"ASIN", jsToUpper a⟩
      | none =>
        match findLitAsin cs "/ASIN/" with
        | some a => some ⟨"ASIN", jsToUpper a⟩
        | none =>
          match findQueryAsin cs with
          | some a => some ⟨"ASIN", jsToUpper a⟩
          | none =>
            match findAmazonAsin cs with
            | some a => some ⟨"ASIN", jsToUpper a⟩
            | none => none

/-! ## POST handler control flow (route.ts `POST`, lines 21-203)

The handler is modelled for the direct-ASIN path (`identifierType ===
'ASIN'`).  External collaborators are explicit: the products table is a
list keyed by `asin` (`.eq('asin', asin).single()` is `find?`), the scrape
of the product page is an oracle (`none` models a thrown fetch/parse
error), and image work reuses `uploadImagesToSupabase`.  The state carries
effect counters so that "no scrape / no insert / no upload" is provable. -/

structure ScrapeData where
  title : String
  price : Option ℚ
  images : List String
  description : String
  bullets : List String
  brand : String
  upc : Option String
  deriving Repr, DecidableEq

structure DbProduct where
  id : String
  asin : String
  title : String
  deriving Repr, DecidableEq

structure PipelineState where
  products : List DbProduct
  scrapeCount : Nat
  insertCount : Nat
  uploadAttempts : Nat
  deriving Repr, DecidableEq

inductive PipelineResult where
  | success (p : DbProduct) (imageRecords : List ImageRecord)
  | alreadyExists (existing : DbProduct)
  | rateLimited (reason : String) (waitTime : Int)
  | scrapeFailed
  deriving Repr, DecidableEq

/-- The `POST` handler (route.ts lines 21-203), ASIN path: rate-limit gate
(429 with reason and wait on denial), duplicate check before any scrape
(409 `alreadyExists` referencing the existing row), then scrape,
`recordRequest`, product insert, and image upload; a scrape failure goes to
the catch block, which calls `recordError`. -/
def postScrapeAmazon (tr : RequestTracker) (st : PipelineState)
    (now minDelay : Int) (identifier : String)
    (scrape : String → Option ScrapeData) (newId : String)
    (stepOk : Nat → Bool) (contentTypeOf : Nat → Option String)
    (publicUrlFor : String → String) :
    RequestTracker × PipelineState × PipelineResult :=
  let gate := checkRateLimit tr now minDelay
  match gate.2 with
  | .denied reason w => (gate.1, st, .rateLimited reason w)
  | .allowed =>
    let asin := identifier
    match st.products.find? (fun p => p.asin == asin) with
    | some existing => (gate.1, st, .alreadyExists existing)
    | none =>
      match scrape asin with
      | none =>
        (recordError gate.1, { st with scrapeCount := st.scrapeCount + 1 },
          .scrapeFailed)
      | some sp =>
        let tr2 := recordRequest gate.1 now
        let prod : DbProduct := { id := newId, asin := asin, title := sp.title }
        let recs := uploadImagesToSupabase newId asin sp.images stepOk
          contentTypeOf publicUrlFor
        (tr2,
          { products := st.products ++ [prod]
            scrapeCount := st.scrapeCount + 1
            insertCount := st.insertCount + 1
            uploadAttempts := st.uploadAttempts + min sp.images.length 12 },
          .success prod recs)

/-! ## Theorems -/

/-- C5: identifier classification applies its pattern checks in order with
first match winning: `"B012345678"` classifies as ASIN with uppercased
code, even though the generic-SKU pattern (checked later) also matches
it. -/
theorem classifier_priority_asin :
    identifyProductCode "B012345678" = some { type := "ASIN", code := "B012345678" } ∧
      skuPat "B012345678" = true := by
  exact ⟨by decide, by decide⟩

/-- C2 counterexample: on a document with two rows whose labels contain
"UPC", the extracted UPC is the trimmed value of the SECOND row, not the
first — the `.each` loop has no early exit, so every later match
overwrites the earlier one. -/
theorem extractUpc_two_rows_second_value :
    extractUpc [{ th := "UPC", td := "111" }, { th := "UPC", td := "222" }] = some "222" ∧
      ("222" : String) ≠ "111" := by
  exact ⟨by decide, by decide⟩

/-- C2 amended: scanning all labeled attribute-table rows for a label
containing "UPC" or "EAN", the LAST matching row's value (trimmed) is the
one returned; for a document with two or more matching rows the extracted
UPC equals the value of the latest matching row. -/
theorem extractUpc_last_match_wins :
    ∀ rows : List TableRow,
      extractUpc rows = (rows.reverse.find? upcLabel).map (fun r => jsTrim r.td) := by
  have key : ∀ (rows : List TableRow) (acc : Option String),
      rows.foldl (fun acc r => if upcLabel r then some (jsTrim r.td) else acc) acc =
        ((rows.reverse.find? upcLabel).map (fun r => jsTrim r.td)).or acc := by
    intro rows
    induction rows with
    | nil => intro acc; simp
    | cons r rs ih =>
      intro acc
      rw [List.foldl_cons, ih, List.reverse_cons, List.find?_append]
      cases h : rs.reverse.find? upcLabel with
      | some r' => simp [Option.or]
      | none =>
        cases hr : upcLabel r <;> simp [List.find?, hr, Option.or]
  intro rows
  rw [extractUpc, key rows none, Option.or_none]

/-- C9: price extraction composes the price from the separate whole and
fractional sub-elements: with whole digits present the price is
`whole.fraction` (a missing fraction is treated as `00`, so the price is
exactly the whole number), the fragments "19"/"99" yield `19.99`, and with
no whole digits the price is undefined — never a default. -/
theorem price_extraction_spec :
    (∀ w f : String, digitsOf w = [] → extractPrice w f = none) ∧
    (∀ w f : String, digitsOf w ≠ [] → digitsOf f ≠ [] →
      extractPrice w f = some ((digitsToNat (digitsOf w) : ℚ) +
        (digitsToNat (digitsOf f) : ℚ) / 10 ^ (digitsOf f).length)) ∧
    (∀ w : String, digitsOf w ≠ [] →
      extractPrice w "" = some (digitsToNat (digitsOf w) : ℚ)) ∧
    extractPrice "19" "99" = some (1999 / 100) := by
  refine ⟨?_, ?_, ?_, ?_⟩
  · intro w f h
    simp [extractPrice, h]
  · intro w f hw hf
    simp [extractPrice, hw, hf]
  · intro w hw
    have hf : digitsOf "" = [] := by decide
    simp [extractPrice, hw, hf, digitsToNat]
  · have hw : digitsOf "19" = ['1', '9'] := by decide
    have hf : digitsOf "99" = ['9', '9'] := by decide
    have hwv : digitsToNat ['1', '9'] = 19 := by decide
    have hfv : digitsToNat ['9', '9'] = 99 := by decide
    simp only [extractPrice, hw, hf]
    rw [if_pos (show (['1', '9'] : List Char) ≠ [] by decide),
      if_neg (show ¬((['9', '9'] : List Char) = []) by decide), hfv, hwv]
    norm_num

/-- Witness for C9: the hypotheses are satisfiable on concrete fragments. -/
theorem price_extraction_spec_witness :
    extractPrice "ab" "99" = none ∧
      extractPrice "19" "99" = some ((digitsToNat (digitsOf "19") : ℚ) +
        (digitsToNat (digitsOf "99") : ℚ) / 10 ^ (digitsOf "99").length) ∧
      extractPrice "19" "" = some (digitsToNat (digitsOf "19") : ℚ) :=
  ⟨price_extraction_spec.1 "ab" "99" (by decide),
   price_extraction_spec.2.1 "19" "99" (by decide) (by decide),
   price_extraction_spec.2.2.1 "19" (by decide)⟩

/-- C7 counterexample: the cap is applied to the exponential BEFORE the
±25% jitter, so the returned delay can exceed the 60000 ms ceiling: at
attempt 6 with the random sample at 1 the returned delay is 75000 ms. -/
theorem backoff_exceeds_ceiling :
    getBackoffDelay 6 1 = 75000 ∧ (60000 : ℤ) < getBackoffDelay 6 1 := by
  have h : getBackoffDelay 6 1 = 75000 := by
    have hmin : (min (1000 * 2 ^ 6 : ℚ) 60000) = 60000 := by norm_num
    simp only [getBackoffDelay, hmin]
    rw [round_eq]
    norm_num
  exact ⟨h, by rw [h]; norm_num⟩

/-- C7 amended: the backoff delay is the exponential `1000 * 2 ^ attempt`
capped at 60000 ms with ±25% multiplicative jitter applied AFTER the cap
(up to rounding by 1/2): the returned delay lies within ±25% of the capped
exponential, and therefore never exceeds 125% of the ceiling (75000 ms) —
but it can exceed the 60000 ms ceiling itself. -/
theorem backoff_jitter_bounds :
    ∀ (n : ℕ) (r : ℚ), 0 ≤ r → r ≤ 1 →
      (3 / 4 : ℚ) * min (1000 * 2 ^ n) 60000 - 1 / 2 ≤ (getBackoffDelay n r : ℚ) ∧
      (getBackoffDelay n r : ℚ) ≤ (5 / 4 : ℚ) * min (1000 * 2 ^ n) 60000 + 1 / 2 ∧
      getBackoffDelay n r ≤ 75000 := by
  intro n r h0 h1
  have hgb : getBackoffDelay n r =
      round (min (1000 * 2 ^ n : ℚ) 60000 +
        min (1000 * 2 ^ n : ℚ) 60000 * (1 / 4) * (r * 2 - 1)) := rfl
  set D : ℚ := min (1000 * 2 ^ n : ℚ) 60000 with hD
  set x : ℚ := D + D * (1 / 4) * (r * 2 - 1) with hx
  have hDpos : 0 < D := by
    rw [hD]
    exact lt_min (by positivity) (by norm_num)
  have hDle : D ≤ 60000 := min_le_right _ _
  have hxlow : (3 / 4) * D ≤ x := by rw [hx]; nlinarith
  have hxhigh : x ≤ (5 / 4) * D := by rw [hx]; nlinarith
  have hru : ((round x : ℤ) : ℚ) ≤ x + 1 / 2 := round_le_add_half x
  have hrl : x - 1 / 2 < ((round x : ℤ) : ℚ) := sub_half_lt_round x
  refine ⟨?_, ?_, ?_⟩
  · rw [hgb]; linarith
  · rw [hgb]; linarith
  · have hq : ((getBackoffDelay n r : ℤ) : ℚ) < ((75001 : ℤ) : ℚ) := by
      rw [hgb]
      push_cast
      linarith
    have : getBackoffDelay n r < 75001 := by exact_mod_cast hq
    omega

/-- Witness for C7's amended theorem at attempt 6 with the random sample
at its upper end. -/
theorem backoff_jitter_bounds_witness :
    (0 : ℚ) ≤ 1 ∧
      ((3 / 4 : ℚ) * min (1000 * 2 ^ 6) 60000 - 1 / 2 ≤ (getBackoffDelay 6 1 : ℚ) ∧
        (getBackoffDelay 6 1 : ℚ) ≤ (5 / 4 : ℚ) * min (1000 * 2 ^ 6) 60000 + 1 / 2 ∧
        getBackoffDelay 6 1 ≤ 75000) :=
  ⟨by norm_num, backoff_jitter_bounds 6 1 (by norm_num) (le_refl 1)⟩

/-- Window-rollover characterization of the mutated tracker. -/
theorem applyWindowResets_eq (t : RequestTracker) (now : Int) :
    applyWindowResets t now =
      { t with
        hourlyCount := if 3600000 < now - t.hourStart then 0 else t.hourlyCount
        hourStart := if 3600000 < now - t.hourStart then now else t.hourStart
        dailyCount := if 86400000 < now - t.dayStart then 0 else t.dailyCount
        dayStart := if 86400000 < now - t.dayStart then now else t.dayStart
        errorCount := if 86400000 < now - t.dayStart then 0 else t.errorCount } := by
  unfold applyWindowResets
  split_ifs with h1 h2 <;> simp_all

/-- C10: on a cold state (`lastRequest = 0`) the minimum-spacing branch is
unreachable — the admission check never returns the too-soon denial,
whatever the sampled minimum delay; the outcome is allowed, the hourly-cap
denial, or the error-rate denial. -/
theorem cold_state_no_spacing_denial :
    ∀ (t : RequestTracker) (now d : Int), t.lastRequest = 0 →
      (∀ w, (checkRateLimit t now d).2 ≠ .denied tooSoonReason w) ∧
      ((checkRateLimit t now d).2 = .allowed ∨
        (∃ w, (checkRateLimit t now d).2 = .denied hourlyReason w) ∨
        (checkRateLimit t now d).2 = .denied errorRateReason 300) := by
  intro t now d hl
  have hlast : (applyWindowResets t now).lastRequest = 0 := by
    rw [applyWindowResets_eq]
    simp [hl]
  have h2 : (checkRateLimit t now d).2 = rateDecision (applyWindowResets t now) now d := rfl
  rw [h2]
  unfold rateDecision
  split_ifs with hA hB hC
  · exact ⟨fun w h => by injection h with h1 _; exact absurd h1 (by decide),
      Or.inr (Or.inl ⟨_, rfl⟩)⟩
  · exact ⟨fun w h => by injection h with h1 _; exact absurd h1 (by decide),
      Or.inr (Or.inr rfl)⟩
  · exfalso
    rw [hlast] at hC
    exact lt_irrefl 0 hC.2
  · exact ⟨fun w h => RateLimitResult.noConfusion h, Or.inl rfl⟩

/-- Witness for C10 on the freshly initialised tracker. -/
theorem cold_state_no_spacing_denial_witness :
    (∀ w, (checkRateLimit (initialTracker 0 "ua") 50 100000).2 ≠ .denied tooSoonReason w) ∧
      ((checkRateLimit (initialTracker 0 "ua") 50 100000).2 = .allowed ∨
        (∃ w, (checkRateLimit (initialTracker 0 "ua") 50 100000).2 = .denied hourlyReason w) ∨
        (checkRateLimit (initialTracker 0 "ua") 50 100000).2 = .denied errorRateReason 300) :=
  cold_state_no_spacing_denial (initialTracker 0 "ua") 50 100000 rfl

/-- C4: running the admission check more than 1 hour after the hourly
window start resets `hourlyCount` to 0 and the hourly window start to now,
leaving `dailyCount` (and `errorCount`) unchanged as long as the daily
window has not also expired; running it more than 24 hours after the daily
window start resets `dailyCount` and `errorCount` (and the daily window
start); and counts are never reset mid-window. -/
theorem admission_window_reset :
    ∀ (t : RequestTracker) (now d : Int),
      (3600000 < now - t.hourStart →
        (checkRateLimit t now d).1.hourlyCount = 0 ∧
        (checkRateLimit t now d).1.hourStart = now) ∧
      (3600000 < now - t.hourStart → now - t.dayStart ≤ 86400000 →
        (checkRateLimit t now d).1.dailyCount = t.dailyCount ∧
        (checkRateLimit t now d).1.errorCount = t.errorCount) ∧
      (86400000 < now - t.dayStart →
        (checkRateLimit t now d).1.dailyCount = 0 ∧
        (checkRateLimit t now d).1.errorCount = 0 ∧
        (checkRateLimit t now d).1.dayStart = now) ∧
      (now - t.hourStart ≤ 3600000 →
        (checkRateLimit t now d).1.hourlyCount = t.hourlyCount ∧
        (checkRateLimit t now d).1.hourStart = t.hourStart) ∧
      (now - t.dayStart ≤ 86400000 →
        (checkRateLimit t now d).1.dailyCount = t.dailyCount ∧
        (checkRateLimit t now d).1.errorCount = t.errorCount ∧
        (checkRateLimit t now d).1.dayStart = t.dayStart) := by
  intro t now d
  have hfst : (checkRateLimit t now d).1 = applyWindowResets t now := rfl
  rw [hfst, applyWindowResets_eq]
  refine ⟨fun hH => ?_, fun hH hD => ?_, fun hD => ?_, fun hH => ?_, fun hD => ?_⟩
  · simp [hH]
  · simp [hH, if_neg (not_lt.mpr hD)]
  · simp [hD]
  · simp [if_neg (not_lt.mpr hH)]
  · simp [if_neg (not_lt.mpr hD)]

/-- Witness for C4 at a concrete tracker and times: 2 hours past an
initial tracker's hour window (hourly reset, daily preserved), and also
instantiated for the mid-window and daily-expiry conjuncts. -/
theorem admission_window_reset_witness :
    ((3600000 : Int) < 7200000 - (initialTracker 0 "ua").hourStart →
      (checkRateLimit (initialTracker 0 "ua") 7200000 500).1.hourlyCount = 0 ∧
      (checkRateLimit (initialTracker 0 "ua") 7200000 500).1.hourStart = 7200000) ∧
      ((3600000 : Int) < 7200000 - (initialTracker 0 "ua").hourStart →
        7200000 - (initialTracker 0 "ua").dayStart ≤ 86400000 →
        (checkRateLimit (initialTracker 0 "ua") 7200000 500).1.dailyCount =
          (initialTracker 0 "ua").dailyCount ∧
        (checkRateLimit (initialTracker 0 "ua") 7200000 500).1.errorCount =
          (initialTracker 0 "ua").errorCount) :=
  ⟨(admission_window_reset (initialTracker 0 "ua") 7200000 500).1,
   (admission_window_reset (initialTracker 0 "ua") 7200000 500).2.1⟩

/-- The float comparison `errorCount / totalRequests > 0.1` over `ℚ`,
restated on the integer counters. -/
theorem errRate_iff (e tt : Nat) (h : 0 < tt) :
    ((1 : ℚ) / 10 < (e : ℚ) / (tt : ℚ)) ↔ tt < 10 * e := by
  have htq : (0 : ℚ) < (tt : ℚ) := by exact_mod_cast h
  rw [div_lt_div_iff (by norm_num) htq]
  constructor
  · intro hh
    exact_mod_cast (by linarith : (tt : ℚ) < 10 * (e : ℚ))
  · intro hh
    have hc : (tt : ℚ) < 10 * (e : ℚ) := by exact_mod_cast hh
    linarith

/-- C3: provided the hourly cap has not already denied, the admission
check denies with the high-error-rate reason and the fixed 300-second wait
exactly when (on the post-rollover counters) `totalRequests > 0` and
`errorCount / totalRequests > 0.10`; in particular after 2 successes and 1
failure it is denied with that reason, and after 19 successes and 1
failure (with the hourly window rolled over) it is allowed. -/
theorem errorRate_breaker :
    (∀ (t : RequestTracker) (now d : Int),
      (applyWindowResets t now).hourlyCount < hourlyLimit →
        ((checkRateLimit t now d).2 = .denied errorRateReason 300 ↔
          0 < (applyWindowResets t now).totalRequests ∧
            (applyWindowResets t now).totalRequests <
              10 * (applyWindowResets t now).errorCount)) ∧
    (checkRateLimit (recordError (recordRequest (recordRequest
      (initialTracker 0 "ua") 10) 20)) 1000 2000).2 = .denied errorRateReason 300 ∧
    (checkRateLimit (recordError ((fun t => recordRequest t 30)^[19]
      (initialTracker 0 "ua"))) 4000000 5000).2 = .allowed := by
  refine ⟨?_, ?_, ?_⟩
  · intro t now d hcap
    have h2 : (checkRateLimit t now d).2 =
        rateDecision (applyWindowResets t now) now d := rfl
    rw [h2]
    set t2 := applyWindowResets t now with ht2
    unfold rateDecision
    rw [if_neg (not_le.mpr hcap)]
    by_cases hb : 0 < t2.totalRequests ∧
        (1 : ℚ) / 10 < (t2.errorCount : ℚ) / (t2.totalRequests : ℚ)
    · rw [if_pos hb]
      constructor
      · intro _
        exact ⟨hb.1, (errRate_iff _ _ hb.1).mp hb.2⟩
      · intro _
        rfl
    · rw [if_neg hb]
      constructor
      · intro hcontr
        by_cases hc : now - t2.lastRequest < d ∧ 0 < t2.lastRequest
        · rw [if_pos hc] at hcontr
          injection hcontr with hrr _
          exact absurd hrr (by decide)
        · rw [if_neg hc] at hcontr
          exact RateLimitResult.noConfusion hcontr
      · intro hrhs
        exact absurd ⟨hrhs.1, (errRate_iff _ _ hrhs.1).mpr hrhs.2⟩ hb
  · set X := recordError (recordRequest (recordRequest
      (initialTracker 0 "ua") 10) 20) with hX
    have e2 : (checkRateLimit X 1000 2000).2 =
        rateDecision (applyWindowResets X 1000) 1000 2000 := rfl
    have hr : applyWindowResets X 1000 = X := by rw [hX]; decide
    rw [e2, hr]
    unfold rateDecision
    have h1 : ¬ (hourlyLimit ≤ X.hourlyCount) := by rw [hX]; decide
    have hcond : 0 < X.totalRequests ∧
        (1 : ℚ) / 10 < (X.errorCount : ℚ) / (X.totalRequests : ℚ) := by
      refine ⟨by rw [hX]; decide, ?_⟩
      have he : X.errorCount = 1 := by rw [hX]; decide
      have ht : X.totalRequests = 3 := by rw [hX]; decide
      rw [he, ht]
      norm_num
    rw [if_neg h1, if_pos hcond]
  · set Y := recordError ((fun t => recordRequest t 30)^[19]
      (initialTracker 0 "ua")) with hY
    have e3 : (checkRateLimit Y 4000000 5000).2 =
        rateDecision (applyWindowResets Y 4000000) 4000000 5000 := rfl
    have hr : applyWindowResets Y 4000000 =
        { count := 19, hourlyCount := 0, dailyCount := 19, lastRequest := 30,
          hourStart := 4000000, dayStart := 0, errorCount := 1, totalRequests := 20,
          currentUserAgent := "ua", sessionStart := 0 } := by
      rw [hY]; decide
    rw [e3, hr]
    unfold rateDecision
    have hB : ¬ (0 < (20 : Nat) ∧ (1 : ℚ) / 10 < ((1 : Nat) : ℚ) / ((20 : Nat) : ℚ)) := by
      intro h
      have := h.2
      norm_num at this
    rw [if_neg (by decide), if_neg hB, if_neg (by decide)]

/-- Witness for C3's universal conjunct at a concrete tracker. -/
theorem errorRate_breaker_witness :
    (applyWindowResets (recordError (initialTracker 0 "ua")) 500).hourlyCount < hourlyLimit ∧
      ((checkRateLimit (recordError (initialTracker 0 "ua")) 500 100).2 =
          .denied errorRateReason 300 ↔
        0 < (applyWindowResets (recordError (initialTracker 0 "ua")) 500).totalRequests ∧
          (applyWindowResets (recordError (initialTracker 0 "ua")) 500).totalRequests <
            10 * (applyWindowResets (recordError (initialTracker 0 "ua")) 500).errorCount) :=
  ⟨by decide, errorRate_breaker.1 (recordError (initialTracker 0 "ua")) 500 100 (by decide)⟩

/-- C1 counterexample: acquiring four images where the download at
position 1 fails yields a result list whose positions are `[0, 2, 3]` —
the loop continues and later positions are NOT shifted, but no entry for
position 1 (marked failed or otherwise) appears in the returned list; the
failure is only logged. -/
theorem upload_failed_position_missing :
    (uploadImagesToSupabase "pid" "B000000000" ["u0", "u1", "u2", "u3"]
        (fun i => i != 1) (fun _ => some "image/jpeg") (fun p => p)).map
        (fun r => r.position) = [0, 2, 3] ∧
      ¬ ∃ r ∈ uploadImagesToSupabase "pid" "B000000000" ["u0", "u1", "u2", "u3"]
        (fun i => i != 1) (fun _ => some "image/jpeg") (fun p => p), r.position = 1 := by
  exact ⟨by decide, by decide⟩

/-- C1 amended: when the download at some position fails, acquisition
continues with the remaining positions, and the returned records are
exactly those of the successful attempted positions, each carrying its
original 0-based index (a hole at a failed position does not shift later
positions) — failed positions are absent from the returned list rather
than reported as failed entries. -/
theorem upload_positions_stable :
    ∀ (productId asin : String) (urls : List String) (stepOk : Nat → Bool)
      (ctOf : Nat → Option String) (pub : String → String),
      (uploadImagesToSupabase productId asin urls stepOk ctOf pub).map
          (fun r => r.position) =
        (List.range (min urls.length 12)).filter stepOk := by
  intro productId asin urls stepOk ctOf pub
  have key : ∀ (g : Nat → ImageRecord), (∀ i, (g i).position = i) →
      ∀ (l : List Nat) (recs : List ImageRecord),
        ((l.foldl (fun recs i => if stepOk i then recs ++ [g i] else recs)
            recs).map (fun r => r.position)) =
          recs.map (fun r => r.position) ++ l.filter stepOk := by
    intro g hg l
    induction l with
    | nil => intro recs; simp
    | cons i tl ih =>
      intro recs
      rw [List.foldl_cons, List.filter_cons]
      simp only [ih]
      by_cases h : stepOk i
      · rw [if_pos h, if_pos h]
        simp [hg]
      · rw [if_neg h, if_neg h]
  show ((List.range (min urls.length 12)).foldl
      (fun recs i => if stepOk i then recs ++
        [(fun j =>
          let ct := (ctOf j).getD "image/jpeg"
          let ext0 := String.mk ((splitChar ct.toList '/').getD 1 [])
          let ext := if ext0 = "" then "jpg" else ext0
          let storagePath := asin ++ "/" ++ toString (j + 1) ++ "." ++ ext
          ({ productId := productId
             imageUrl := pub storagePath
             storagePath := storagePath
             position := j } : ImageRecord)) i] else recs) []).map
      (fun r => r.position) = (List.range (min urls.length 12)).filter stepOk
  rw [key _ (fun j => rfl) (List.range (min urls.length 12)) []]
  simp

/-! ### C6 helper lemmas about the image-set fold -/

theorem addClean_mem_preserve :
    ∀ (ds : List String) (acc : List String) (x : String),
      x ∈ acc → x ∈ ds.foldl addClean acc := by
  intro ds
  induction ds with
  | nil => intro acc x h; simpa using h
  | cons d tl ih =>
    intro acc x h
    rw [List.foldl_cons]
    apply ih
    simp only [addClean]
    split_ifs with h1 h2
    · exact h
    · exact h
    · exact List.mem_append_left _ h

theorem addClean_go_nodup :
    ∀ (ds : List String) (acc : List String),
      acc.Nodup → (ds.foldl addClean acc).Nodup := by
  intro ds
  induction ds with
  | nil => intro acc h; simpa using h
  | cons d tl ih =>
    intro acc h
    rw [List.foldl_cons]
    apply ih
    simp only [addClean]
    split_ifs with h1 h2
    · exact h
    · exact h
    · rw [List.nodup_append]
      exact ⟨h, List.nodup_singleton _, by simpa using h2⟩

theorem addClean_go_mem :
    ∀ (ds : List String) (acc : List String) (u : String),
      u ∈ ds → cleanImageUrl u ≠ "" →
      cleanImageUrl u ∈ ds.foldl addClean acc := by
  intro ds
  induction ds with
  | nil => intro acc u h _; exact absurd h (List.not_mem_nil u)
  | cons d tl ih =>
    intro acc u h hne
    rw [List.foldl_cons]
    rcases List.mem_cons.mp h with rfl | htl
    · apply addClean_mem_preserve
      simp only [addClean]
      split_ifs with h1 h2
      · exact absurd h1 hne
      · exact h2
      · exact List.mem_append_right _ (List.mem_singleton_self _)
    · exact ih (addClean acc d) u htl hne

theorem addClean_go_sublist :
    ∀ (ds : List String) (acc : List String),
      ∃ l', ds.foldl addClean acc = acc ++ l' ∧
        l'.Sublist ((ds.map cleanImageUrl).filter (fun c => c != "")) := by
  intro ds
  induction ds with
  | nil => intro acc; exact ⟨[], by simp, by simp⟩
  | cons d tl ih =>
    intro acc
    rw [List.foldl_cons, List.map_cons, List.filter_cons]
    by_cases h1 : cleanImageUrl d = ""
    · obtain ⟨l', heq, hsub⟩ := ih acc
      refine ⟨l', ?_, ?_⟩
      · rw [show addClean acc d = acc from by simp [addClean, h1]]
        exact heq
      · simpa [h1] using hsub
    · by_cases h2 : cleanImageUrl d ∈ acc
      · obtain ⟨l', heq, hsub⟩ := ih acc
        refine ⟨l', ?_, ?_⟩
        · rw [show addClean acc d = acc from by simp [addClean, h1, h2]]
          exact heq
        · simp only [bne_iff_ne, ne_eq, h1, not_false_eq_true, if_true]
          exact hsub.cons _
      · obtain ⟨l', heq, hsub⟩ := ih (acc ++ [cleanImageUrl d])
        refine ⟨cleanImageUrl d :: l', ?_, ?_⟩
        · rw [show addClean acc d = acc ++ [cleanImageUrl d] from by
            simp [addClean, h1, h2]]
          rw [heq, List.append_assoc]
          rfl
        · simp only [bne_iff_ne, ne_eq, h1, not_false_eq_true, if_true]
          exact hsub.cons₂ _

/-- C6: every normalized URL appears at most once in the extracted image
list (the list is duplicate-free and is a sublist of the normalized
discovery sequence, so order of first discovery is preserved); two
discovered URLs that normalize identically contribute exactly one entry;
and concretely two URLs differing only by a size-modifier substring
collapse to the single normalized entry. -/
theorem image_dedup :
    (∀ ds : List String, (collectImages ds).Nodup) ∧
    (∀ ds : List String,
      (collectImages ds).Sublist ((ds.map cleanImageUrl).filter (fun c => c != ""))) ∧
    (∀ (ds : List String) (u1 u2 : String), u1 ∈ ds → u2 ∈ ds →
      cleanImageUrl u1 = cleanImageUrl u2 → cleanImageUrl u1 ≠ "" →
      (collectImages ds).count (cleanImageUrl u1) = 1) ∧
    (cleanImageUrl "https://a/b._SL500_.jpg" = "https://a/b.jpg" ∧
      cleanImageUrl "https://a/b._AC_SX425_.jpg" = "https://a/b.jpg" ∧
      collectImages ["https://a/b._SL500_.jpg", "https://a/b._AC_SX425_.jpg"] =
        ["https://a/b.jpg"]) := by
  refine ⟨?_, ?_, ?_, by decide, by decide, by decide⟩
  · intro ds
    exact addClean_go_nodup ds [] List.nodup_nil
  · intro ds
    obtain ⟨l', heq, hsub⟩ := addClean_go_sublist ds []
    show (ds.foldl addClean []).Sublist _
    rw [heq]
    simpa using hsub
  · intro ds u1 u2 h1 h2 hcc hne
    exact List.count_eq_one_of_mem (addClean_go_nodup ds [] List.nodup_nil)
      (addClean_go_mem ds [] u1 h1 hne)

/-- Witness for C6's dedup conjunct on the two concrete size-modifier
variants. -/
theorem image_dedup_witness :
    (collectImages ["https://a/b._SL500_.jpg", "https://a/b._AC_SX425_.jpg"]).count
        (cleanImageUrl "https://a/b._SL500_.jpg") = 1 :=
  image_dedup.2.2.1 ["https://a/b._SL500_.jpg", "https://a/b._AC_SX425_.jpg"]
    "https://a/b._SL500_.jpg" "https://a/b._AC_SX425_.jpg"
    (by decide) (by decide) (by decide) (by decide)

/-- C8: if a product with the same identifier already exists in
persistence, the handler returns the distinct AlreadyExists outcome
referencing the existing row and performs no scrape, no persistence write
and no image uploads (the pipeline state, including all effect counters,
is returned unchanged); consequently invoking the pipeline twice with the
same identifier yields Success then AlreadyExists, with no duplicate
insert and no duplicate uploads on the second call. -/
theorem pipeline_idempotent_rejection :
    (∀ (tr : RequestTracker) (st : PipelineState) (now d : Int)
      (id : String) (scrape : String → Option ScrapeData) (newId : String)
      (stepOk : Nat → Bool) (ctOf : Nat → Option String) (pub : String → String)
      (p : DbProduct),
      (checkRateLimit tr now d).2 = .allowed →
      st.products.find? (fun q => q.asin == id) = some p →
      postScrapeAmazon tr st now d id scrape newId stepOk ctOf pub =
        ((checkRateLimit tr now d).1, st, .alreadyExists p)) ∧
    (∀ (tr : RequestTracker) (st : PipelineState) (now1 d1 now2 d2 : Int)
      (id : String) (scrape : String → Option ScrapeData) (newId1 newId2 : String)
      (stepOk : Nat → Bool) (ctOf : Nat → Option String) (pub : String → String)
      (sp : ScrapeData),
      (checkRateLimit tr now1 d1).2 = .allowed →
      st.products.find? (fun q => q.asin == id) = none →
      scrape id = some sp →
      ∃ (recs : List ImageRecord) (tr1 : RequestTracker) (st1 : PipelineState),
        postScrapeAmazon tr st now1 d1 id scrape newId1 stepOk ctOf pub =
          (tr1, st1, .success { id := newId1, asin := id, title := sp.title } recs) ∧
        st1.products = st.products ++ [{ id := newId1, asin := id, title := sp.title }] ∧
        st1.insertCount = st.insertCount + 1 ∧
        ((checkRateLimit tr1 now2 d2).2 = .allowed →
          postScrapeAmazon tr1 st1 now2 d2 id scrape newId2 stepOk ctOf pub =
            ((checkRateLimit tr1 now2 d2).1, st1,
              .alreadyExists { id := newId1, asin := id, title := sp.title }))) := by
  constructor
  · intro tr st now d id scrape newId stepOk ctOf pub p hallow hfind
    unfold postScrapeAmazon
    simp only [hallow, hfind]
  · intro tr st now1 d1 now2 d2 id scrape newId1 newId2 stepOk ctOf pub sp
      hallow hfind hscrape
    refine ⟨uploadImagesToSupabase newId1 id sp.images stepOk ctOf pub,
      recordRequest (checkRateLimit tr now1 d1).1 now1,
      { products := st.products ++ [{ id := newId1, asin := id, title := sp.title }]
        scrapeCount := st.scrapeCount + 1
        insertCount := st.insertCount + 1
        uploadAttempts := st.uploadAttempts + min sp.images.length 12 },
      ?_, rfl, rfl, ?_⟩
    · unfold postScrapeAmazon
      simp only [hallow, hfind, hscrape]
    · intro hallow2
      have hfind2 : (st.products ++
          [({ id := newId1, asin := id, title := sp.title } : DbProduct)]).find?
          (fun q => q.asin == id) =
          some { id := newId1, asin := id, title := sp.title } := by
        rw [List.find?_append, hfind]
        simp [List.find?]
      unfold postScrapeAmazon
      simp only [hallow2, hfind2]

/-- Witness data for C8: a concrete scraped product. -/
def sampleScrape : ScrapeData :=
  { title := "Example Widget", price := none, images := ["https://i/1.jpg"],
    description := "", bullets := [], brand := "", upc := none }

/-- Witness data for C8: the empty persistence state. -/
def emptyState : PipelineState :=
  { products := [], scrapeCount := 0, insertCount := 0, uploadAttempts := 0 }

/-- Witness for C8's second conjunct on a cold tracker and empty store. -/
theorem pipeline_idempotent_rejection_witness :
    ∃ (recs : List ImageRecord) (tr1 : RequestTracker) (st1 : PipelineState),
      postScrapeAmazon (initialTracker 0 "ua") emptyState 1000 500 "B012345678"
          (fun _ => some sampleScrape) "p1" (fun _ => true)
          (fun _ => some "image/jpeg") (fun s => s) =
        (tr1, st1,
          .success { id := "p1", asin := "B012345678", title := sampleScrape.title } recs) ∧
      st1.products = emptyState.products ++
        [{ id := "p1", asin := "B012345678", title := sampleScrape.title }] ∧
      st1.insertCount = emptyState.insertCount + 1 ∧
      ((checkRateLimit tr1 10000000 500).2 = .allowed →
        postScrapeAmazon tr1 st1 10000000 500 "B012345678"
            (fun _ => some sampleScrape) "p2" (fun _ => true)
            (fun _ => some "image/jpeg") (fun s => s) =
          ((checkRateLimit tr1 10000000 500).1, st1,
            .alreadyExists { id := "p1", asin := "B012345678", title := sampleScrape.title })) := by
  have h1 : (checkRateLimit (initialTracker 0 "ua") 1000 500).2 = .allowed := by
    have hr : applyWindowResets (initialTracker 0 "ua") 1000 =
        initialTracker 0 "ua" := by decide
    have e1 : (checkRateLimit (initialTracker 0 "ua") 1000 500).2 =
        rateDecision (applyWindowResets (initialTracker 0 "ua") 1000) 1000 500 := rfl
    rw [e1, hr]
    unfold rateDecision
    rw [if_neg (by decide : ¬ (hourlyLimit ≤ (initialTracker 0 "ua").hourlyCount))]
    rw [if_neg (fun h => absurd h.1 (by decide))]
    rw [if_neg (fun h => absurd h.2 (by decide))]
  exact pipeline_idempotent_rejection.2 (initialTracker 0 "ua") emptyState
    1000 500 10000000 500 "B012345678" (fun _ => some sampleScrape) "p1" "p2"
    (fun _ => true) (fun _ => some "image/jpeg") (fun s => s) sampleScrape
    h1 rfl rfl

end ProductsManager
